import Mathlib

/-!
Shallow embedding of the GitHub profile/repository aggregator of this
repository: the two screens in `app/(tabs)/index.tsx` (profile) and
`app/(tabs)/projects.tsx` (all repositories), namely their data model, the
`fetchGitHubData` / `fetchRepositories` operations on screen state, the
date-formatting helpers, and the detail modal's defensive stat rendering.
Network and JSON parsing are modelled by a `FetchResult` value describing the
outcome each screen observes; everything downstream of that outcome is
translated directly from the source.
-/

/-- The `GitHubProfile` interface of `app/(tabs)/index.tsx`. -/
structure GitHubProfile where
  avatar_url : String
  name : String
  bio : String
  public_repos : Int
  followers : Int
deriving DecidableEq, Repr

/-- The `Repository` interface of `app/(tabs)/projects.tsx` (a superset of the
one declared in `index.tsx`; TypeScript interfaces are structural, so one type
serves both screens). The numeric count fields the sort and the star total read
are declared `number` in both interfaces. The date fields and the two counts
that only the detail modal reads are modelled as `Option`: `none` stands for a
field that is absent from (or null in) the runtime JSON, which the interfaces
do not rule out and the rendering code defends against. -/
structure Repository where
  id : Int
  name : String
  description : String
  stargazers_count : Int
  language : String
  created_at : Option String
  updated_at : Option String
  html_url : String
  forks_count : Option Int
  open_issues_count : Option Int
  topics : List String
deriving DecidableEq, Repr

/-- Outcome of one HTTP fetch-and-parse pipeline as a screen observes it:
`netError` =  the `fetch` promise rejected; `httpError` = a response arrived
with `ok = false`; `badBody` = an ok response whose body failed to parse as
the expected JSON shape (`.json()` or the later array use throws);
`success` = an ok response with parsed data. -/
inductive FetchResult (α : Type) where
  | netError
  | httpError
  | badBody
  | success (data : α)
deriving DecidableEq, Repr

/-- Whether a fetch outcome is the success case. -/
def FetchResult.isSuccess {α : Type} : FetchResult α → Bool
  | .success _ => true
  | _ => false

/-- The comparator `(a, b) => b.stargazers_count - a.stargazers_count` passed to
`sort` in `index.tsx` (lines 70-72). -/
def profileCompare (a b : Repository) : Int :=
  b.stargazers_count - a.stargazers_count

/-- The comparator `(a, b) => b.stargazers_count - a.stargazers_count` passed to
`sort` in `projects.tsx` (lines 69-71), a second textual copy of the one in
`index.tsx`. -/
def projectsCompare (a b : Repository) : Int :=
  b.stargazers_count - a.stargazers_count

/-- `Array.prototype.sort` with a consistent numeric comparator `cmp`: a stable
sort that places `a` no later than `b` whenever `cmp a b ≤ 0` (the ECMAScript
2019 sort contract, realised here by a stable insertion sort). -/
def jsSort (cmp : Repository → Repository → Int) (l : List Repository) :
    List Repository :=
  List.insertionSort (fun a b => cmp a b ≤ 0) l

/-- The star total of `index.tsx` line 66:
`reposData.reduce((acc, repo) => acc + repo.stargazers_count, 0)`. -/
def starsReduce (reposData : List Repository) : Int :=
  reposData.foldl (fun acc repo => acc + repo.stargazers_count) 0

/-- `sortedRepos` of `index.tsx` lines 70-72: the repositories sorted by the
star comparator, then `slice(0, 3)`. -/
def sortedRepos (reposData : List Repository) : List Repository :=
  (jsSort profileCompare reposData).take 3

/-- `sortedData` of `projects.tsx` lines 69-71: the full repository list sorted
by the star comparator. -/
def sortedData (data : List Repository) : List Repository :=
  jsSort projectsCompare data

/-- The view state of the profile screen (`index.tsx` lines 41-45). -/
structure ProfileScreenState where
  profile : Option GitHubProfile
  topRepos : List Repository
  totalStars : Int
  loading : Bool
  error : Option String
deriving DecidableEq, Repr

/-- The `useState` initial values of the profile screen: no profile, no top
repositories, zero stars, loading, no error. -/
def initialProfileState : ProfileScreenState :=
  { profile := none, topRepos := [], totalStars := 0, loading := true,
    error := none }

/-- One invocation of `fetchGitHubData` (`index.tsx` lines 51-81) as a state
transformer. If both fetches succeed, both responses are ok and both bodies
parse, the derived totals and data are stored and `loading` cleared; every
other outcome reaches the `catch` block, which only sets the fixed error
message (the `finally` clears `loading`). Note that the success path never
writes `error` and the failure path never writes the data fields. -/
def fetchGitHubData (profileRes : FetchResult GitHubProfile)
    (reposRes : FetchResult (List Repository))
    (s : ProfileScreenState) : ProfileScreenState :=
  match profileRes, reposRes with
  | .success profileData, .success reposData =>
    { s with
      totalStars := starsReduce reposData
      profile := some profileData
      topRepos := sortedRepos reposData
      loading := false }
  | _, _ =>
    { s with error := some "Failed to load profile data", loading := false }

/-- The view state of the projects screen (`projects.tsx` lines 48-51). -/
structure ProjectsScreenState where
  repositories : List Repository
  selectedRepo : Option Repository
  loading : Bool
  error : Option String
deriving DecidableEq, Repr

/-- The `useState` initial values of the projects screen. -/
def initialProjectsState : ProjectsScreenState :=
  { repositories := [], selectedRepo := none, loading := true, error := none }

/-- One invocation of `fetchRepositories` (`projects.tsx` lines 57-78) as a
state transformer: on success the sorted list is stored, otherwise the `catch`
block sets the fixed error message; `finally` clears `loading` either way. -/
def fetchRepositories (res : FetchResult (List Repository))
    (s : ProjectsScreenState) : ProjectsScreenState :=
  match res with
  | .success data =>
    { s with repositories := sortedData data, loading := false }
  | _ =>
    { s with error := some "Failed to load repositories", loading := false }

/-- JavaScript truthiness of the `error` state value: `null` and the empty
string are falsy, any other string is truthy. -/
def strTruthy : Option String → Bool
  | none => false
  | some s => !(s == "")

/-- What the profile screen renders (`index.tsx` lines 83-188): the loading
view while `loading`, the error view when `error` is truthy, otherwise the
data view over the current state. -/
inductive ProfileView where
  | loadingView
  | errorView (msg : String)
  | dataView (profile : Option GitHubProfile) (topRepos : List Repository)
      (totalStars : Int)
deriving DecidableEq, Repr

/-- The render branch structure of `ProfileScreen`. -/
def renderProfile (s : ProfileScreenState) : ProfileView :=
  if s.loading then .loadingView
  else if strTruthy s.error then .errorView (s.error.getD "")
  else .dataView s.profile s.topRepos s.totalStars

/-- What the projects screen renders (`projects.tsx` lines 212-241). -/
inductive ProjectsView where
  | loadingView
  | errorView (msg : String)
  | listView (repositories : List Repository)
deriving DecidableEq, Repr

/-- The render branch structure of `ProjectsScreen`. -/
def renderProjects (s : ProjectsScreenState) : ProjectsView :=
  if s.loading then .loadingView
  else if strTruthy s.error then .errorView (s.error.getD "")
  else .listView s.repositories

/-- `formatDate` of `projects.tsx` lines 41-45, parameterised by the host date
behaviour: `parse` models `s => new Date(s)`, returning `none` exactly when the
result is an Invalid Date (date-fns `isValid` false), and `fmt` models
`formatDistanceToNow` on a valid date. The input `none` models a field that is
absent or null at runtime; `!dateString` is also true for the empty string,
hence the extra test. -/
def formatDate (parse : String → Option Int) (fmt : Int → String)
    (dateString : Option String) : String :=
  match dateString with
  | none => "N/A"
  | some s =>
    if s == "" then "N/A"
    else
      match parse s with
      | none => "N/A"
      | some date => fmt date ++ " ago"

/-- The date text of the profile screen, `index.tsx` lines 168-174:
`formatDistanceToNow(new Date(repo.created_at))` with no validity guard.
date-fns `formatDistanceToNow` throws `RangeError: Invalid time value` on an
Invalid Date (the reason `projects.tsx` guards with `isValid`), and an absent
field yields `new Date(undefined)`, an Invalid Date; the `Except.error` case
models that exception escaping the render. -/
def profileDateText (parse : String → Option Int) (fmt : Int → String)
    (dateString : Option String) : Except String String :=
  match dateString.bind parse with
  | none => Except.error "Invalid time value"
  | some date => Except.ok (fmt date ++ " ago")

/-- JavaScript `x || 0` where `x` is a possibly absent number: `undefined`,
`null` (both `none`) and `0` are falsy and give `0`; any other number is
returned unchanged. -/
def jsOrZero (v : Option Int) : Int :=
  match v with
  | none => 0
  | some n => if n = 0 then 0 else n

/-- The Stars stat of the detail modal, `projects.tsx` line 152:
`selectedRepo?.stargazers_count || 0`. -/
def modalStars (selectedRepo : Option Repository) : Int :=
  jsOrZero (selectedRepo.map Repository.stargazers_count)

/-- The Forks stat of the detail modal, `projects.tsx` line 160:
`selectedRepo?.forks_count || 0`. -/
def modalForks (selectedRepo : Option Repository) : Int :=
  jsOrZero (selectedRepo.bind Repository.forks_count)

/-- The Issues stat of the detail modal, `projects.tsx` line 168:
`selectedRepo?.open_issues_count || 0`. -/
def modalIssues (selectedRepo : Option Repository) : Int :=
  jsOrZero (selectedRepo.bind Repository.open_issues_count)

/-- A concrete sample profile, used by witnesses. -/
def sampleProfile : GitHubProfile :=
  { avatar_url := "https://example.com/avatar.png", name := "Sample User",
    bio := "bio", public_repos := 4, followers := 7 }

/-- A concrete sample repository with 5 stars. -/
def sampleRepoA : Repository :=
  { id := 1, name := "alpha", description := "first sample",
    stargazers_count := 5, language := "TypeScript",
    created_at := some "2024-01-01T00:00:00Z",
    updated_at := some "2024-06-01T00:00:00Z",
    html_url := "https://example.com/alpha", forks_count := some 2,
    open_issues_count := some 1, topics := ["expo"] }

/-- A concrete sample repository with 9 stars. -/
def sampleRepoB : Repository :=
  { id := 2, name := "beta", description := "second sample",
    stargazers_count := 9, language := "JavaScript",
    created_at := some "2023-03-05T00:00:00Z",
    updated_at := some "2024-05-01T00:00:00Z",
    html_url := "https://example.com/beta", forks_count := some 0,
    open_issues_count := some 3, topics := [] }

/-- A concrete sample repository with 2 stars whose modal-only numeric fields
are absent and whose date fields are absent. -/
def sampleRepoC : Repository :=
  { id := 3, name := "gamma", description := "third sample",
    stargazers_count := 2, language := "Python", created_at := none,
    updated_at := none, html_url := "https://example.com/gamma",
    forks_count := none, open_issues_count := none, topics := [] }

/-- A concrete sample repository with zero stars and a zero issue count. -/
def sampleRepoZ : Repository :=
  { id := 4, name := "zeta", description := "zero sample",
    stargazers_count := 0, language := "Ruby",
    created_at := some "2022-01-01T00:00:00Z", updated_at := none,
    html_url := "https://example.com/zeta", forks_count := none,
    open_issues_count := some 0, topics := [] }

/-! ### Helper lemmas about the star-comparator sort -/

/-- A comparator that subtracts star counts orders `a` no later than `b`
exactly when `b`'s star count is at most `a`'s. -/
theorem compare_nonpos_iff (cmp : Repository → Repository → Int)
    (hcmp : ∀ a b, cmp a b = b.stargazers_count - a.stargazers_count)
    (a b : Repository) :
    cmp a b ≤ 0 ↔ b.stargazers_count ≤ a.stargazers_count := by
  rw [hcmp, sub_nonpos]

/-- `jsSort` with a star-subtraction comparator yields a list that is pairwise
non-increasing in star count. -/
theorem jsSort_pairwise (cmp : Repository → Repository → Int)
    (hcmp : ∀ a b, cmp a b = b.stargazers_count - a.stargazers_count)
    (l : List Repository) :
    List.Pairwise
      (fun a b => b.stargazers_count ≤ a.stargazers_count) (jsSort cmp l) := by
  haveI : IsTotal Repository (fun a b => cmp a b ≤ 0) := by
    constructor
    intro a b
    simp only [compare_nonpos_iff cmp hcmp]
    exact le_total _ _
  haveI : IsTrans Repository (fun a b => cmp a b ≤ 0) := by
    constructor
    intro a b c hab hbc
    simp only [compare_nonpos_iff cmp hcmp] at hab hbc ⊢
    exact hbc.trans hab
  have h := List.sorted_insertionSort (fun a b => cmp a b ≤ 0) l
  exact h.imp (fun hab => (compare_nonpos_iff cmp hcmp _ _).mp hab)

/-- `jsSort` permutes its input. -/
theorem jsSort_perm (cmp : Repository → Repository → Int) (l : List Repository) :
    (jsSort cmp l).Perm l :=
  List.perm_insertionSort (fun a b => cmp a b ≤ 0) l

/-! ### Claims -/

/-- Claim C1: for every repository list returned by a successful pair of API
responses, the total star count computed by the profile screen's fetch equals
the sum of the `stargazers_count` field over every repository in the list, and
an empty list yields 0. -/
theorem fetch_totalStars_eq_sum (s : ProfileScreenState) (p : GitHubProfile)
    (repos : List Repository) :
    (fetchGitHubData (.success p) (.success repos) s).totalStars
        = (repos.map Repository.stargazers_count).sum
      ∧ (fetchGitHubData (.success p) (.success []) s).totalStars = 0 := by
  constructor
  · show starsReduce repos = _
    rw [starsReduce, List.sum_eq_foldl, List.foldl_map]
  · rfl

/-- Claim C7: the profile screen's sort and the all-repositories screen's sort
are the same function on repository lists, and the profile screen's
top-repositories subset equals the first three elements of the
all-repositories screen's sorted output. -/
theorem sort_logic_shared :
    (∀ l : List Repository, jsSort profileCompare l = jsSort projectsCompare l)
      ∧ (∀ l : List Repository, sortedRepos l = (sortedData l).take 3)
      ∧ ∀ (s : ProfileScreenState) (t : ProjectsScreenState)
          (p : GitHubProfile) (repos : List Repository),
          (fetchGitHubData (.success p) (.success repos) s).topRepos
            = ((fetchRepositories (.success repos) t).repositories).take 3 :=
  ⟨fun _ => rfl, fun _ => rfl, fun _ _ _ _ => rfl⟩

/-- Claim C8: the sorted all-repositories list is a permutation of the fetched
list; in particular every repository keeps its multiplicity, so nothing is
dropped, duplicated or invented by the sort step. -/
theorem fetchRepositories_perm (s : ProjectsScreenState)
    (data : List Repository) :
    ((fetchRepositories (.success data) s).repositories).Perm data
      ∧ ∀ r : Repository,
          ((fetchRepositories (.success data) s).repositories).count r
            = data.count r := by
  have hp : ((fetchRepositories (.success data) s).repositories).Perm data :=
    jsSort_perm projectsCompare data
  exact ⟨hp, fun r => hp.count_eq r⟩

/-- Claim C9: for a successful fetch of a repository list of length `n`, the
top-repositories subset has length exactly `min 3 n`: all repositories appear
when there are fewer than three, and the subset is never padded. -/
theorem topRepos_length_min (s : ProfileScreenState) (p : GitHubProfile)
    (repos : List Repository) :
    (fetchGitHubData (.success p) (.success repos) s).topRepos.length
      = min 3 repos.length := by
  show ((jsSort profileCompare repos).take 3).length = min 3 repos.length
  rw [List.length_take, (jsSort_perm profileCompare repos).length_eq]

/-- Claim C2: the top-repositories subset computed by the profile screen has
length at most 3 and is sorted descending by star count: at every pair of
positions `i < j` the star count at `i` is at least the star count at `j`. -/
theorem topRepos_le_three_sorted (s : ProfileScreenState) (p : GitHubProfile)
    (repos : List Repository) :
    (fetchGitHubData (.success p) (.success repos) s).topRepos
        = sortedRepos repos
      ∧ (sortedRepos repos).length ≤ 3
      ∧ ∀ (i j : Fin (sortedRepos repos).length), i < j →
          ((sortedRepos repos).get j).stargazers_count
            ≤ ((sortedRepos repos).get i).stargazers_count := by
  refine ⟨rfl, ?_, ?_⟩
  · show ((jsSort profileCompare repos).take 3).length ≤ 3
    rw [List.length_take]
    exact min_le_left _ _
  · have hp : List.Pairwise
        (fun a b => b.stargazers_count ≤ a.stargazers_count)
        (sortedRepos repos) :=
      (jsSort_pairwise profileCompare (fun _ _ => rfl) repos).sublist
        (List.take_sublist 3 _)
    exact fun i j hij => List.pairwise_iff_get.mp hp i j hij

/-- Witness for C2 at a concrete two-repository list. -/
theorem topRepos_le_three_sorted_witness :
    (sortedRepos [sampleRepoA, sampleRepoB]).length ≤ 3
      ∧ ((sortedRepos [sampleRepoA, sampleRepoB]).get
            ⟨1, by decide⟩).stargazers_count
          ≤ ((sortedRepos [sampleRepoA, sampleRepoB]).get
            ⟨0, by decide⟩).stargazers_count :=
  ⟨(topRepos_le_three_sorted initialProfileState sampleProfile
      [sampleRepoA, sampleRepoB]).2.1,
   (topRepos_le_three_sorted initialProfileState sampleProfile
      [sampleRepoA, sampleRepoB]).2.2 ⟨0, by decide⟩ ⟨1, by decide⟩ (by decide)⟩

/-- Claim C3: after a successful fetch, the list held by the all-repositories
screen is fully sorted descending by star count: at every pair of positions
`i < j` the star count at `i` is at least the star count at `j`. -/
theorem repositories_sorted_desc (s : ProjectsScreenState)
    (data : List Repository) :
    (fetchRepositories (.success data) s).repositories = sortedData data
      ∧ ∀ (i j : Fin (sortedData data).length), i < j →
          ((sortedData data).get j).stargazers_count
            ≤ ((sortedData data).get i).stargazers_count := by
  refine ⟨rfl, ?_⟩
  have hp : List.Pairwise
      (fun a b => b.stargazers_count ≤ a.stargazers_count)
      (sortedData data) :=
    jsSort_pairwise projectsCompare (fun _ _ => rfl) data
  exact fun i j hij => List.pairwise_iff_get.mp hp i j hij

/-- Witness for C3 at a concrete three-repository list. -/
theorem repositories_sorted_desc_witness :
    ((sortedData [sampleRepoA, sampleRepoB, sampleRepoC]).get
          ⟨2, by decide⟩).stargazers_count
        ≤ ((sortedData [sampleRepoA, sampleRepoB, sampleRepoC]).get
          ⟨0, by decide⟩).stargazers_count :=
  (repositories_sorted_desc initialProjectsState
      [sampleRepoA, sampleRepoB, sampleRepoC]).2
    ⟨0, by decide⟩ ⟨2, by decide⟩ (by decide)

/-- Claim C4: on either screen, if either HTTP response is not ok or any error
is thrown during fetch or JSON parsing, the fetch invoked from the mount state
sets the single fixed error message and leaves the profile and repository
state empty — no profile data, no repository data, no derived totals — and the
screen renders the fixed error message, with no partial display of whichever
call succeeded. -/
theorem fetch_failure_error_state :
    (∀ (pr : FetchResult GitHubProfile) (rr : FetchResult (List Repository)),
        pr.isSuccess = false ∨ rr.isSuccess = false →
          fetchGitHubData pr rr initialProfileState
              = { profile := none, topRepos := [], totalStars := 0,
                  loading := false,
                  error := some "Failed to load profile data" }
            ∧ renderProfile (fetchGitHubData pr rr initialProfileState)
              = .errorView "Failed to load profile data")
      ∧ ∀ rr : FetchResult (List Repository),
          rr.isSuccess = false →
            fetchRepositories rr initialProjectsState
                = { repositories := [], selectedRepo := none, loading := false,
                    error := some "Failed to load repositories" }
              ∧ renderProjects (fetchRepositories rr initialProjectsState)
                = .errorView "Failed to load repositories" := by
  constructor
  · intro pr rr h
    cases pr <;> cases rr <;>
      first
        | exact ⟨rfl, rfl⟩
        | simp [FetchResult.isSuccess] at h
  · intro rr h
    cases rr <;>
      first
        | exact ⟨rfl, rfl⟩
        | simp [FetchResult.isSuccess] at h

/-- Witness for C4: a failed profile-screen fetch whose repository call
succeeded, and a network-failed projects-screen fetch. -/
theorem fetch_failure_error_state_witness :
    (fetchGitHubData .httpError (.success [sampleRepoA]) initialProfileState
        = { profile := none, topRepos := [], totalStars := 0, loading := false,
            error := some "Failed to load profile data" }
      ∧ renderProfile
          (fetchGitHubData .httpError (.success [sampleRepoA])
            initialProfileState)
        = .errorView "Failed to load profile data")
      ∧ fetchRepositories .netError initialProjectsState
          = { repositories := [], selectedRepo := none, loading := false,
              error := some "Failed to load repositories" } :=
  ⟨fetch_failure_error_state.1 .httpError (.success [sampleRepoA])
      (Or.inl rfl),
   (fetch_failure_error_state.2 .netError rfl).1⟩

/-- Counterexample to claim C5 as stated: after a failed invocation followed by
a successful one, the profile screen's state is NOT the fresh successful-fetch
state — the error message written by the failed invocation is still present,
so the screen still renders the error view rather than the data. -/
theorem refetch_after_failure_counterexample :
    (fetchGitHubData (.success sampleProfile) (.success [sampleRepoA])
          (fetchGitHubData .httpError .netError initialProfileState)).error
        = some "Failed to load profile data"
      ∧ fetchGitHubData (.success sampleProfile) (.success [sampleRepoA])
            (fetchGitHubData .httpError .netError initialProfileState)
          ≠ fetchGitHubData (.success sampleProfile) (.success [sampleRepoA])
            initialProfileState
      ∧ renderProfile
          (fetchGitHubData (.success sampleProfile) (.success [sampleRepoA])
            (fetchGitHubData .httpError .netError initialProfileState))
        = .errorView "Failed to load profile data" := by
  refine ⟨rfl, ?_, rfl⟩
  decide

/-- Claim C5 (amended): after a failed invocation followed by a successful one,
the data fields hold exactly the fresh successful-fetch values — the failed
invocation leaves no stale data and loading is cleared — but the error message
set by the failure persists, because the success path never clears `error`, so
the screen still renders the error view. Likewise for the projects screen. -/
theorem refetch_after_failure_amended :
    (∀ (pr : FetchResult GitHubProfile) (rr : FetchResult (List Repository))
        (p : GitHubProfile) (repos : List Repository),
        pr.isSuccess = false ∨ rr.isSuccess = false →
          fetchGitHubData (.success p) (.success repos)
              (fetchGitHubData pr rr initialProfileState)
            = { profile := some p, topRepos := sortedRepos repos,
                totalStars := starsReduce repos, loading := false,
                error := some "Failed to load profile data" }
            ∧ renderProfile
                (fetchGitHubData (.success p) (.success repos)
                  (fetchGitHubData pr rr initialProfileState))
              = .errorView "Failed to load profile data")
      ∧ ∀ (rr : FetchResult (List Repository)) (data : List Repository),
          rr.isSuccess = false →
            fetchRepositories (.success data)
                (fetchRepositories rr initialProjectsState)
              = { repositories := sortedData data, selectedRepo := none,
                  loading := false,
                  error := some "Failed to load repositories" }
              ∧ renderProjects
                  (fetchRepositories (.success data)
                    (fetchRepositories rr initialProjectsState))
                = .errorView "Failed to load repositories" := by
  constructor
  · intro pr rr p repos h
    cases pr <;> cases rr <;>
      first
        | exact ⟨rfl, rfl⟩
        | simp [FetchResult.isSuccess] at h
  · intro rr data h
    cases rr <;>
      first
        | exact ⟨rfl, rfl⟩
        | simp [FetchResult.isSuccess] at h

/-- Witness for the amended C5 at concrete inputs. -/
theorem refetch_after_failure_amended_witness :
    fetchGitHubData (.success sampleProfile) (.success [sampleRepoB])
          (fetchGitHubData .netError .badBody initialProfileState)
        = { profile := some sampleProfile,
            topRepos := sortedRepos [sampleRepoB],
            totalStars := starsReduce [sampleRepoB], loading := false,
            error := some "Failed to load profile data" }
      ∧ fetchRepositories (.success [sampleRepoB])
          (fetchRepositories .httpError initialProjectsState)
        = { repositories := sortedData [sampleRepoB], selectedRepo := none,
            loading := false, error := some "Failed to load repositories" } :=
  ⟨(refetch_after_failure_amended.1 .netError .badBody sampleProfile
      [sampleRepoB] (Or.inl rfl)).1,
   (refetch_after_failure_amended.2 .httpError [sampleRepoB] rfl).1⟩

/-- Counterexample to claim C6 as stated: the profile screen renders repository
dates without the `formatDate` guard, so for a repository whose date field is
missing the profile screen's date rendering raises the date-fns RangeError
instead of producing the string "N/A" — the property does not hold at every
place the application renders a repository date. The same missing field shown
through `formatDate` (projects screen) does produce "N/A". -/
theorem date_na_counterexample :
    profileDateText (fun _ => none) (fun _ => "today") none
        = Except.error "Invalid time value"
      ∧ profileDateText (fun _ => none) (fun _ => "today") none
          ≠ Except.ok "N/A"
      ∧ formatDate (fun _ => none) (fun _ => "today") none = "N/A" := by
  refine ⟨rfl, ?_, rfl⟩
  intro h
  exact Except.noConfusion h

/-- Claim C6 (amended): the projects screen's `formatDate` — used for the list
rows and the detail modal — yields the literal string "N/A" whenever the date
field is missing or null, the empty string, or fails to parse as a valid date;
the profile screen, however, passes dates to `formatDistanceToNow(new Date(...))`
unguarded, so a missing or unparseable date there raises the RangeError
"Invalid time value" instead of displaying "N/A". -/
theorem formatDate_na_amended :
    (∀ (parse : String → Option Int) (fmt : Int → String) (d : Option String),
        d = none ∨ d = some "" ∨ (∃ s, d = some s ∧ parse s = none) →
          formatDate parse fmt d = "N/A")
      ∧ (∀ (parse : String → Option Int) (fmt : Int → String),
          profileDateText parse fmt none = Except.error "Invalid time value")
      ∧ ∀ (parse : String → Option Int) (fmt : Int → String) (s : String),
          parse s = none →
            profileDateText parse fmt (some s)
              = Except.error "Invalid time value" := by
  refine ⟨?_, fun parse fmt => rfl, ?_⟩
  · rintro parse fmt d (rfl | rfl | ⟨s, rfl, hs⟩)
    · rfl
    · rfl
    · simp [formatDate, hs]
  · intro parse fmt s hs
    simp [profileDateText, hs]

/-- Witness for the amended C6 at concrete inputs. -/
theorem formatDate_na_amended_witness :
    formatDate (fun _ => some 0) (fun _ => "today") none = "N/A"
      ∧ profileDateText (fun _ => none) (fun _ => "today") (some "not-a-date")
        = Except.error "Invalid time value" :=
  ⟨formatDate_na_amended.1 (fun _ => some 0) (fun _ => "today") none
      (Or.inl rfl),
   formatDate_na_amended.2.2 (fun _ => none) (fun _ => "today") "not-a-date"
      rfl⟩

/-- Claim C10: in the repository detail modal, a missing or null value (the
`|| 0` operand being undefined or null) and the value 0 are all rendered as the
number 0, for each of the Stars, Forks and Issues stats; the stat display is
total — it yields a number — even when the numeric fields are absent or no
repository is selected. -/
theorem modal_stats_zero :
    (∀ v : Option Int, v = none ∨ v = some 0 → jsOrZero v = 0)
      ∧ modalStars none = 0
      ∧ (∀ r : Repository, r.stargazers_count = 0 → modalStars (some r) = 0)
      ∧ modalForks none = 0
      ∧ (∀ r : Repository,
          r.forks_count = none ∨ r.forks_count = some 0 →
            modalForks (some r) = 0)
      ∧ modalIssues none = 0
      ∧ ∀ r : Repository,
          r.open_issues_count = none ∨ r.open_issues_count = some 0 →
            modalIssues (some r) = 0 := by
  refine ⟨?_, rfl, ?_, rfl, ?_, rfl, ?_⟩
  · rintro v (rfl | rfl) <;> rfl
  · intro r h
    simp [modalStars, jsOrZero, h]
  · rintro r (h | h) <;> simp [modalForks, jsOrZero, h]
  · rintro r (h | h) <;> simp [modalIssues, jsOrZero, h]

/-- Witness for C10 at concrete repositories with zero and absent fields. -/
theorem modal_stats_zero_witness :
    jsOrZero none = 0
      ∧ modalStars (some sampleRepoZ) = 0
      ∧ modalForks (some sampleRepoC) = 0
      ∧ modalIssues (some sampleRepoZ) = 0 :=
  ⟨modal_stats_zero.1 none (Or.inl rfl),
   modal_stats_zero.2.2.1 sampleRepoZ rfl,
   modal_stats_zero.2.2.2.2.1 sampleRepoC (Or.inl rfl),
   modal_stats_zero.2.2.2.2.2.2 sampleRepoZ (Or.inr rfl)⟩
